import Mathlib

set_option maxRecDepth 8000

namespace SmartmeterExporter

/-- Link-local or IPv6 address, kept opaque (the parser module renders it as text). -/
abbrev IpAddr := String

/-- Coordinator description produced by an active scan (channel, PAN id, 64-bit address). -/
structure PanDesc where
  channel : Nat
  pan_id : Nat
  addr : String
deriving DecidableEq

/-- Modelled from the spec (echonet_lite module is not under src): one property of an
appliance object frame: property code, declared data length, raw payload bytes. -/
structure EDataProperty where
  epc : Nat
  pdc : Nat
  edt : List Nat
deriving DecidableEq

/-- Modelled from the spec (echonet_lite module is not under src): format-1 EDATA of an
appliance object frame: source object code, destination object code, service code,
and the property list. -/
structure EDataFormat1 where
  seoj : Nat
  deoj : Nat
  esv : Nat
  props : List EDataProperty
deriving DecidableEq

/-- Modelled from the spec: the EDATA alternatives; main.rs only inspects format 1. -/
inductive EData where
  | eDataFormat1 (d : EDataFormat1)
  | unknown (raw : List Nat)
deriving DecidableEq

/-- Modelled from the spec: an appliance object frame: 2-byte header, 2-byte transaction
id, and the EDATA body. -/
structure EchonetLite where
  ehd : Nat
  tid : Nat
  edata : EData
deriving DecidableEq

/-- Modelled from the spec: the smart meter's well-known source object code
(a fixed constant in the echonet_lite module). -/
def EOJ_HOUSING_LOW_VOLTAGE_SMART_METER : Nat := 0x028801

namespace EpcLowVoltageSmartMeter

/-- Modelled from the spec: property code of the cumulative-energy-unit property. -/
def CUMULATIVE_ENERGY_UNIT : Nat := 0xE1

/-- Modelled from the spec: property code of the instantaneous-energy property. -/
def INSTANTANEOUS_ENERGY : Nat := 0xE7

/-- Modelled from the spec: property code of the cumulative-energy
(fixed time, normal direction) property. -/
def CUMULATIVE_ENERGY_FIXED_TIME_NORMAL_DIRECTION : Nat := 0xEA

end EpcLowVoltageSmartMeter

/-- Responses decoded from device output by the parser module and queued to the
foreground; the variants and the payload fields are exactly those consumed in main.rs. -/
inductive Response where
  | skReset
  | skSetRbid
  | skSetPwd
  | skScan
  | ePanDesc (pd : PanDesc)
  | event (num : Nat) (sender : IpAddr) (param : Option Nat)
  | skSreg
  | skLl64 (ipaddr : IpAddr)
  | skJoin
  | skSendTo (result : Nat)
  | eRxUdp (data : EchonetLite)
  | uartTimeOut
deriving DecidableEq

/-- The response queue as seen by the foreground: each item is tagged with the wall-clock
time, in milliseconds since the most recent `Instant::now()` reset, at which `recv`
returns it.  An exhausted list models the channel closing (the reader thread exited);
main.rs only reads these times through `Instant::elapsed` in its two timed wait loops. -/
abbrev RespQueue := List (Nat × Response)

/-- The error outcomes of the session state machine: the `Box<dyn Error>` messages of
main.rs, plus the `RecvError` produced by `recv()` on a closed queue. -/
inductive Err where
  | channelClosed
  | skResetFailed
  | skSetRbidFailed
  | skSetPwdFailed
  | skScanFailed
  | noSensorFound
  | skSregFailed
  | skLl64Failed
  | skJoinFailed
  | connectTimeout
  | panaFailed
  | sendUnitFailed
  | invalidUnit
  | getUnitFailed
deriving DecidableEq

/-- bytes::Buf::get_u8 on a payload: its first byte. -/
def getU8 (edt : List Nat) : Nat := edt.headD 0

/-- bytes::Buf::get_u32 on a payload: the big-endian 32-bit value formed by its first
four bytes. -/
def getU32BE (edt : List Nat) : Nat :=
  edt.getD 0 0 * 2 ^ 24 + edt.getD 1 0 * 2 ^ 16 + edt.getD 2 0 * 2 ^ 8 + edt.getD 3 0

/-! ## Transport split (UartReader / UartWriter, src/src/main.rs lines 29-112)

The two halves share one `Arc<AtomicBool>` closed flag.  Reads, writes and flushes
check the flag first and fail with a "disconnected" error when it is set; dropping
either half stores `true` into the flag.  The underlying device operation is passed
in as an `Except` value so that the model can state that it is not consulted once
the flag is set. -/

/-- The state shared by the two transport halves: the single atomic closed flag. -/
structure UartShared where
  isClosed : Bool
deriving DecidableEq

/-- The possible errors of a raw transport operation. -/
inductive IoError where
  | disconnected
  | timedOut
  | other
deriving DecidableEq

/-- Drop of UartReader: stores true into the shared closed flag. -/
def uartReaderDrop (s : UartShared) : UartShared := { s with isClosed := true }

/-- Drop of UartWriter: stores true into the shared closed flag. -/
def uartWriterDrop (s : UartShared) : UartShared := { s with isClosed := true }

/-- UartReader::read: checks the closed flag before touching the device; when the flag
is set it fails with a disconnected error without performing the read, otherwise it
returns whatever the device read produced. -/
def uartRead (s : UartShared) (device : Except IoError (List Nat)) :
    Except IoError (List Nat) :=
  if s.isClosed then .error .disconnected else device

/-- UartWriter::write: checks the closed flag first, then performs the device write. -/
def uartWrite (s : UartShared) (device : Except IoError Nat) : Except IoError Nat :=
  if s.isClosed then .error .disconnected else device

/-- UartWriter::flush: checks the closed flag first, then performs the device flush. -/
def uartFlush (s : UartShared) (device : Except IoError Unit) : Except IoError Unit :=
  if s.isClosed then .error .disconnected else device

/-! ## active_scan (src/src/main.rs lines 114-139) -/

/-- The receive loop of active_scan: `tmp` starts as the "unable to find sensor within
duration" failure, every EPanDesc overwrites it with Ok of that PanDesc, an event with
code 0x22 returns the current `tmp` (together with the unconsumed remainder of the
queue), every other item is ignored, and an exhausted queue is the closed channel
propagated by `recv()?`. -/
def activeScanLoop : RespQueue → Except Err PanDesc → Except Err (PanDesc × RespQueue)
  | [], _ => .error .channelClosed
  | (_, r) :: rest, tmp =>
    match r with
    | .event num _ _ =>
      if num = 0x22 then
        match tmp with
        | .ok pd => .ok (pd, rest)
        | .error e => .error e
      else activeScanLoop rest tmp
    | .ePanDesc pd => activeScanLoop rest (.ok pd)
    | _ => activeScanLoop rest tmp

/-- active_scan: send the scan command, require the SKSCAN ack as the single next queue
item, then run the receive loop with the not-found failure as the initial accumulator. -/
def activeScan : RespQueue → Except Err (PanDesc × RespQueue)
  | [] => .error .channelClosed
  | (_, r) :: rest =>
    match r with
    | .skScan => activeScanLoop rest (.error .noSensorFound)
    | _ => .error .skScanFailed

/-! ## wait_for_connect (src/src/main.rs lines 141-162)

The source binds `total_wait_time` to the constant `Duration::from_millis(0)` and never
updates it, so the guard at the top of the loop compares 0 ms against 30 s on every
iteration; the definition reproduces that comparison literally. -/

/-- wait_for_connect: loop, first checking the (constant) total_wait_time against the
30-second bound, then receiving one item; event 0x24 is the PANA failure, event 0x25 is
success (returning the unconsumed remainder of the queue), everything else is ignored. -/
def waitForConnect : RespQueue → Except Err RespQueue
  | [] =>
    if (0 : Nat) > 30000 then .error .connectTimeout
    else .error .channelClosed
  | (_, r) :: rest =>
    if (0 : Nat) > 30000 then .error .connectTimeout
    else
      match r with
      | .event num _ _ =>
        if num = 0x24 then .error .panaFailed
        else if num = 0x25 then .ok rest
        else waitForConnect rest
      | _ => waitForConnect rest

/-- Discriminator: is this result the "connect timeout" failure of wait_for_connect? -/
def isConnTimeoutRes : Except Err RespQueue → Bool
  | .error .connectTimeout => true
  | _ => false

/-! ## send_initialize_command_sequence (src/src/main.rs lines 164-302) -/

/-- Does this response match `Response::SkReset`? -/
def isSkReset : Response → Bool
  | .skReset => true
  | _ => false

/-- Does this response match `Response::SkSetRbid { .. }`? -/
def isSkSetRbid : Response → Bool
  | .skSetRbid => true
  | _ => false

/-- Does this response match `Response::SkSetPwd { .. }`? -/
def isSkSetPwd : Response → Bool
  | .skSetPwd => true
  | _ => false

/-- Does this response match `Response::SkSreg { .. }`? -/
def isSkSreg : Response → Bool
  | .skSreg => true
  | _ => false

/-- Does this response match `Response::SkLl64 { .. }`? -/
def isSkLl64 : Response → Bool
  | .skLl64 _ => true
  | _ => false

/-- Does this response match `Response::SkJoin { .. }`? -/
def isSkJoin : Response → Bool
  | .skJoin => true
  | _ => false

/-- One strict-ack step of the join sequence: receive the single next queue item and
require it to satisfy the step's expected-variant test; any other item fails with the
step's error, an exhausted queue is the closed channel propagated by `recv()?`. -/
def recvMatch (q : RespQueue) (expected : Response → Bool) (e : Err) :
    Except Err RespQueue :=
  match q with
  | [] => .error .channelClosed
  | (_, r) :: rest => if expected r then .ok rest else .error e

/-- The SKLL64 step: receive the single next queue item, require the address-resolution
result and extract the resolved IPv6 address from it. -/
def recvLl64 (q : RespQueue) : Except Err (IpAddr × RespQueue) :=
  match q with
  | [] => .error .channelClosed
  | (_, r) :: rest =>
    match r with
    | .skLl64 ipaddr => .ok (ipaddr, rest)
    | _ => .error .skLl64Failed

/-- The unit scale-code table of the RequestUnit step (the `match unit_data` at
src/src/main.rs lines 271-284): nine defined codes, each mapped to its decimal
multiplier, every other byte an error. -/
def decodeUnitScale (b : Nat) : Except Err ℚ :=
  if b = 0x0 then .ok 1
  else if b = 0x1 then .ok (1 / 10)
  else if b = 0x2 then .ok (1 / 100)
  else if b = 0x3 then .ok (1 / 1000)
  else if b = 0x4 then .ok (1 / 10000)
  else if b = 0xa then .ok 10
  else if b = 0xb then .ok 100
  else if b = 0xc then .ok 1000
  else if b = 0xd then .ok 10000
  else .error .invalidUnit

/-- The scale codes for which the `match unit_data` arm is not the error arm. -/
def definedScaleCodes : List Nat := [0x0, 0x1, 0x2, 0x3, 0x4, 0xa, 0xb, 0xc, 0xd]

/-- The nine multipliers the scale-code table can produce. -/
def scaleValues : List ℚ :=
  [1, 1 / 10, 1 / 100, 1 / 1000, 1 / 10000, 10, 100, 1000, 10000]

/-- The `for prop in props` loop of the RequestUnit step: each property whose code is
the cumulative-energy-unit code with declared length 1 is decoded through the
scale-code table and overwrites `unit`; an undefined code aborts with the invalid-unit
error; every other property is ignored. -/
def unitFromProps : List EDataProperty → ℚ → Except Err ℚ
  | [], unit => .ok unit
  | p :: rest, unit =>
    if p.epc = EpcLowVoltageSmartMeter.CUMULATIVE_ENERGY_UNIT ∧ p.pdc = 0x01 then
      match decodeUnitScale (getU8 p.edt) with
      | .ok u => unitFromProps rest u
      | .error e => .error e
    else unitFromProps rest unit

/-- The `'wait_response` loop of the RequestUnit step: at the top of each iteration the
elapsed time (the arrival time of the most recently received item, 0 before any) is
compared against 19 s and the loop breaks, keeping the current `unit`, once it is
exceeded; otherwise one item is received: a send-result with nonzero code fails, a
received-datagram from the smart-meter source object runs the property loop over the
current `unit`, everything else is ignored. -/
def unitLoop : RespQueue → Nat → ℚ → Except Err ℚ
  | [], tLast, unit =>
    if tLast > 19000 then .ok unit else .error .channelClosed
  | (t, r) :: rest, tLast, unit =>
    if tLast > 19000 then .ok unit
    else
      match r with
      | .skSendTo result =>
        if result = 0x00 then unitLoop rest t unit else .error .sendUnitFailed
      | .eRxUdp d =>
        match d.edata with
        | .eDataFormat1 f =>
          if f.seoj = EOJ_HOUSING_LOW_VOLTAGE_SMART_METER then
            match unitFromProps f.props unit with
            | .ok u => unitLoop rest t u
            | .error e => .error e
          else unitLoop rest t unit
        | _ => unitLoop rest t unit
      | _ => unitLoop rest t unit

/-- The whole RequestUnit step: run the wait loop with `unit = 0.0` and a fresh clock;
a final `unit` still equal to 0.0 means no unit was ever decoded and is the
"Get cumulative energy unit failed" error. -/
def requestUnitPhase (q : RespQueue) : Except Err ℚ :=
  match unitLoop q 0 0 with
  | .error e => .error e
  | .ok u => if u = 0 then .error .getUnitFailed else .ok u

/-- send_initialize_command_sequence: the strictly sequential join handshake.  Each
strict-ack step consumes exactly one queue item and requires the expected variant;
active_scan, wait_for_connect and the RequestUnit wait loop consume their own
segments.  Commands written to the transport are not modelled (sends are assumed
delivered); the returned pair is the resolved address and the decoded unit scale. -/
def send_initialize_command_sequence (q : RespQueue) : Except Err (IpAddr × ℚ) :=
  match recvMatch q isSkReset .skResetFailed with
  | .error e => .error e
  | .ok q =>
  match recvMatch q isSkSetRbid .skSetRbidFailed with
  | .error e => .error e
  | .ok q =>
  match recvMatch q isSkSetPwd .skSetPwdFailed with
  | .error e => .error e
  | .ok q =>
  match activeScan q with
  | .error e => .error e
  | .ok (_pd, q) =>
  match recvMatch q isSkSreg .skSregFailed with
  | .error e => .error e
  | .ok q =>
  match recvMatch q isSkSreg .skSregFailed with
  | .error e => .error e
  | .ok q =>
  match recvLl64 q with
  | .error e => .error e
  | .ok (ipv6_addr, q) =>
  match recvMatch q isSkJoin .skJoinFailed with
  | .error e => .error e
  | .ok q =>
  match waitForConnect q with
  | .error e => .error e
  | .ok q =>
  match requestUnitPhase q with
  | .error e => .error e
  | .ok unit => .ok (ipv6_addr, unit)

/-! ## initialize (src/src/main.rs lines 309-376), failure path only

On any failure of send_initialize_command_sequence, initialize drops the writer (which
stores true into the shared closed flag), joins the reader thread, and returns the
failure; only on success does it hand the session tuple to the caller.  The drop and
join are modelled as an ordered list of teardown actions. -/

/-- The teardown actions initialize and the outer loop can perform. -/
inductive TeardownAction where
  | dropWriter
  | joinReader
deriving DecidableEq

/-- The error path of initialize: run the join sequence over the queue; on failure emit
drop-writer then join-reader and return the error, on success emit nothing and return
the session data (resolved address and unit scale). -/
def initResultWithTeardown (q : RespQueue) :
    List TeardownAction × Except Err (IpAddr × ℚ) :=
  match send_initialize_command_sequence q with
  | .ok s => ([], .ok s)
  | .error e => ([.dropWriter, .joinReader], .error e)

/-! ## The polling tick (the `'wait_response` loop of main, src/src/main.rs
lines 452-522) and the enclosing `'main` loop. -/

/-- The externally observed readings: the instantaneous_energy and cumulative_energy
gauges. -/
structure Gauges where
  instantaneous : ℚ
  cumulative : ℚ
deriving DecidableEq

/-- How one polling tick ended. -/
inductive TickOutcome where
  | timeout
  | sendFailed
  | dataApplied
  | channelClosed
deriving DecidableEq

/-- One property of a matching received-datagram, applied to the gauges (the
`for prop in props` loop of the tick): the instantaneous-energy property with declared
length 4 sets the instantaneous gauge to its big-endian 32-bit magnitude unscaled; the
cumulative-energy property with declared length 11 sets the cumulative gauge to the
big-endian 32-bit value of payload bytes 7..11 times the session's unit scale; every
other property is ignored. -/
def applyProp (unit : ℚ) (g : Gauges) (p : EDataProperty) : Gauges :=
  if p.epc = EpcLowVoltageSmartMeter.INSTANTANEOUS_ENERGY ∧ p.pdc = 0x04 then
    { g with instantaneous := (getU32BE p.edt : ℚ) }
  else if p.epc = EpcLowVoltageSmartMeter.CUMULATIVE_ENERGY_FIXED_TIME_NORMAL_DIRECTION
      ∧ p.pdc = 0x0b then
    { g with cumulative := (getU32BE (p.edt.drop 7) : ℚ) * unit }
  else g

/-- The `'wait_response` loop of one polling tick: the 19-second window is checked at
the top of each iteration against the arrival time of the most recently received item
(0 before any); then one item is received — a send-result with zero code is logged and
ignored, one with nonzero code ends the tick as a send failure, a received-datagram
from the smart-meter source object applies its properties to the gauges and ends the
tick, everything else is ignored; `recv` failing because the queue closed ends the
whole polling loop. -/
def pollTick : RespQueue → Nat → ℚ → Gauges → Gauges × TickOutcome
  | [], tLast, _, g =>
    if tLast > 19000 then (g, .timeout) else (g, .channelClosed)
  | (t, r) :: rest, tLast, unit, g =>
    if tLast > 19000 then (g, .timeout)
    else
      match r with
      | .skSendTo result =>
        if result = 0x00 then pollTick rest t unit g else (g, .sendFailed)
      | .eRxUdp d =>
        match d.edata with
        | .eDataFormat1 f =>
          if f.seoj = EOJ_HOUSING_LOW_VOLTAGE_SMART_METER then
            (f.props.foldl (applyProp unit) g, .dataApplied)
          else pollTick rest t unit g
        | _ => pollTick rest t unit g
      | _ => pollTick rest t unit g

/-- What the `'main` loop does after a tick. -/
inductive MainAction where
  | nextTick
  | restartSession
deriving DecidableEq

/-- The continuation of the `'main` loop after one tick: a closed queue breaks out of
the polling loop, drops the writer, joins the dead reader thread and re-runs the whole
session state machine (a fresh initialize, starting from Reset); every other outcome
just proceeds to the next tick with no teardown. -/
def mainLoopStep : TickOutcome → List TeardownAction × MainAction
  | .channelClosed => ([.dropWriter, .joinReader], .restartSession)
  | _ => ([], .nextTick)

/-! ## Classifier predicates and concrete inputs used by the theorems -/

/-- Items the active-scan receive loop ignores: everything except a scan-result and the
scan-complete event. -/
def isScanIgnored : Response → Bool
  | .ePanDesc _ => false
  | .event num _ _ => num != 0x22
  | _ => true

/-- Does this queue item carry a cumulative-energy-unit property from the smart-meter
source object (the only kind of item that can set `unit` in the RequestUnit step)? -/
def carriesUnitProp : Response → Bool
  | .eRxUdp d =>
    match d.edata with
    | .eDataFormat1 f =>
      f.seoj == EOJ_HOUSING_LOW_VOLTAGE_SMART_METER &&
        f.props.any (fun p =>
          p.epc == EpcLowVoltageSmartMeter.CUMULATIVE_ENERGY_UNIT && p.pdc == 0x01)
    | .unknown _ => false
  | _ => false

/-- Items one polling tick receives and ignores: a zero-result send ack, a datagram not
from the smart-meter source object, and every other non-terminal variant. -/
def tickIgnored : Response → Bool
  | .skSendTo result => result == 0x00
  | .eRxUdp d =>
    match d.edata with
    | .eDataFormat1 f => f.seoj != EOJ_HOUSING_LOW_VOLTAGE_SMART_METER
    | .unknown _ => true
  | _ => true

/-- Discriminator: did the computation succeed? -/
def unitResultIsOk : Except Err ℚ → Bool
  | .ok _ => true
  | .error _ => false

/-- A received-datagram from the smart-meter source object whose single property is the
cumulative-energy-unit property (declared length 1) with payload byte `b`. -/
def mkUnitDatagram (b : Nat) : Response :=
  .eRxUdp ⟨0x1081, 1, .eDataFormat1 ⟨EOJ_HOUSING_LOW_VOLTAGE_SMART_METER, 0x05FF01, 0x72,
    [⟨EpcLowVoltageSmartMeter.CUMULATIVE_ENERGY_UNIT, 0x01, [b]⟩]⟩⟩

/-- A received-datagram from the smart-meter source object carrying the given
property list. -/
def meterDatagram (props : List EDataProperty) : Response :=
  .eRxUdp ⟨0x1081, 1, .eDataFormat1
    ⟨EOJ_HOUSING_LOW_VOLTAGE_SMART_METER, 0x05FF01, 0x72, props⟩⟩

/-- A scan result for channel 33. -/
def pd33 : PanDesc := ⟨33, 0x8888, "001D129012345678"⟩

/-- A scan result for channel 36. -/
def pd36 : PanDesc := ⟨36, 0x8888, "001D129012345678"⟩

/-- A resolved link-local address used in concrete runs. -/
def demoAddr : IpAddr := "FE80:0000:0000:0000:021D:1290:1234:5678"

/-- A queue on which the whole join sequence succeeds with unit byte 0x0B (scale 100). -/
def goodQueue : RespQueue :=
  [(0, .skReset), (0, .skSetRbid), (0, .skSetPwd), (0, .skScan), (0, .ePanDesc pd36),
   (0, .event 0x22 "" none), (0, .skSreg), (0, .skSreg), (0, .skLl64 demoAddr),
   (0, .skJoin), (0, .event 0x25 "" none), (1000, mkUnitDatagram 0xb),
   (20000, .uartTimeOut)]

/-- An instantaneous-energy property with payload 00 00 02 9A (666 raw). -/
def instProp : EDataProperty :=
  ⟨EpcLowVoltageSmartMeter.INSTANTANEOUS_ENERGY, 0x04, [0x00, 0x00, 0x02, 0x9A]⟩

/-- A cumulative-energy property: a 7-byte timestamp followed by 00 00 00 64 (100 raw). -/
def cumProp : EDataProperty :=
  ⟨EpcLowVoltageSmartMeter.CUMULATIVE_ENERGY_FIXED_TIME_NORMAL_DIRECTION, 0x0b,
   [0x07, 0xE5, 0x01, 0x01, 0x00, 0x00, 0x00, 0x00, 0x00, 0x00, 0x64]⟩

/-- A queue that keeps delivering only the 5-second UartTimeOut liveness signal until
well past the 30-second bound and then closes. -/
def stalledQueue : RespQueue :=
  [(5000, .uartTimeOut), (10000, .uartTimeOut), (15000, .uartTimeOut),
   (20000, .uartTimeOut), (25000, .uartTimeOut), (30000, .uartTimeOut),
   (35000, .uartTimeOut)]

/-- The expected-variant test of the k-th strict-ack step of the join sequence
(reset, set id, set password, set channel, set PAN id, resolve address, join). -/
def stepExpects : Nat → Response → Bool
  | 0, r => isSkReset r
  | 1, r => isSkSetRbid r
  | 2, r => isSkSetPwd r
  | 3, r => isSkSreg r
  | 4, r => isSkSreg r
  | 5, r => isSkLl64 r
  | 6, r => isSkJoin r
  | _, _ => false

/-- The error returned when the k-th strict-ack step sees a non-matching item. -/
def stepErr : Nat → Err
  | 0 => .skResetFailed
  | 1 => .skSetRbidFailed
  | 2 => .skSetPwdFailed
  | 3 => .skSregFailed
  | 4 => .skSregFailed
  | 5 => .skLl64Failed
  | _ => .skJoinFailed

/-- A successful active-scan segment: ack, one scan result, scan-complete event. -/
def scanSegment : RespQueue :=
  [(0, .skScan), (0, .ePanDesc pd36), (0, .event 0x22 "" none)]

/-- A queue prefix that carries the join sequence successfully up to (not including)
its k-th strict-ack step. -/
def stepPrefix : Nat → RespQueue
  | 0 => []
  | 1 => [(0, .skReset)]
  | 2 => [(0, .skReset), (0, .skSetRbid)]
  | 3 => [(0, .skReset), (0, .skSetRbid), (0, .skSetPwd)] ++ scanSegment
  | 4 => [(0, .skReset), (0, .skSetRbid), (0, .skSetPwd)] ++ scanSegment ++ [(0, .skSreg)]
  | 5 => [(0, .skReset), (0, .skSetRbid), (0, .skSetPwd)] ++ scanSegment ++
      [(0, .skSreg), (0, .skSreg)]
  | _ => [(0, .skReset), (0, .skSetRbid), (0, .skSetPwd)] ++ scanSegment ++
      [(0, .skSreg), (0, .skSreg), (0, .skLl64 demoAddr)]

/-! ## Theorems -/

/-- C8: the transport split shares a single closed flag between the two halves:
dropping either half sets the flag, and once the flag is set every read attempt fails
immediately with a disconnected error (without consulting the device), and every write
or flush likewise fails with a disconnected error. -/
theorem c8_transport_split_closed_flag :
    (∀ s, (uartReaderDrop s).isClosed = true) ∧
    (∀ s, (uartWriterDrop s).isClosed = true) ∧
    (∀ d, uartRead ⟨true⟩ d = .error .disconnected) ∧
    (∀ d, uartWrite ⟨true⟩ d = .error .disconnected) ∧
    (∀ d, uartFlush ⟨true⟩ d = .error .disconnected) :=
  ⟨fun _ => rfl, fun _ => rfl, fun _ => rfl, fun _ => rfl, fun _ => rfl⟩

/-- C1: the claim that wait_for_connect fails as a timeout once more than 30 seconds
have elapsed is false on the code: `total_wait_time` is the constant 0 ms and is never
updated, so the 30-second guard can never fire.  On a queue that delivers nothing but
UartTimeOut liveness items well past the 30-second mark and then closes, the function
returns the closed-channel error, and on no queue whatsoever does it return the
connect-timeout failure. -/
theorem c1_wait_for_connect_never_times_out :
    waitForConnect stalledQueue = .error .channelClosed ∧
    ∀ q, isConnTimeoutRes (waitForConnect q) = false := by
  refine ⟨rfl, fun q => ?_⟩
  induction q with
  | nil => rfl
  | cons hd tl ih =>
    obtain ⟨t0, r⟩ := hd
    cases r with
    | event num s p =>
      rcases eq_or_ne num 0x24 with h | h
      · subst h; rfl
      · rcases eq_or_ne num 0x25 with h2 | h2
        · subst h2; rfl
        · simpa [waitForConnect, h, h2] using ih
    | skReset => simpa [waitForConnect] using ih
    | skSetRbid => simpa [waitForConnect] using ih
    | skSetPwd => simpa [waitForConnect] using ih
    | skScan => simpa [waitForConnect] using ih
    | ePanDesc pd => simpa [waitForConnect] using ih
    | skSreg => simpa [waitForConnect] using ih
    | skLl64 ip => simpa [waitForConnect] using ih
    | skJoin => simpa [waitForConnect] using ih
    | skSendTo res => simpa [waitForConnect] using ih
    | eRxUdp d => simpa [waitForConnect] using ih
    | uartTimeOut => simpa [waitForConnect] using ih

/-- C5: after the scan-started ack, the active-scan receive loop accumulates
scan-results last-wins (an EPanDesc overwrites the accumulator), the event with code
0x22 returns the most recently accumulated result, returns the no-coordinator failure
when none was ever received, ignores every other queue item, and on the two-result
scenario (channels 33 then 36, then event 0x22) returns the channel-36 PanDesc. -/
theorem c5_active_scan_last_wins :
    (∀ q tmp t pd,
      activeScanLoop ((t, .ePanDesc pd) :: q) tmp = activeScanLoop q (.ok pd)) ∧
    (∀ q t s p pd,
      activeScanLoop ((t, .event 0x22 s p) :: q) (.ok pd) = .ok (pd, q)) ∧
    (∀ q t s p,
      activeScanLoop ((t, .event 0x22 s p) :: q) (.error .noSensorFound) =
        .error .noSensorFound) ∧
    (∀ q tmp t r, isScanIgnored r = true →
      activeScanLoop ((t, r) :: q) tmp = activeScanLoop q tmp) ∧
    activeScan [(0, .skScan), (0, .ePanDesc pd33), (0, .ePanDesc pd36),
      (0, .event 0x22 "" none)] = .ok (pd36, []) := by
  refine ⟨fun _ _ _ _ => rfl, fun _ _ _ _ _ => rfl, fun _ _ _ _ => rfl,
    fun q tmp t r h => ?_, rfl⟩
  cases r with
  | ePanDesc pd => simp [isScanIgnored] at h
  | event num s p =>
    have hne : num ≠ 0x22 := by simpa [isScanIgnored] using h
    simp [activeScanLoop, hne]
  | skReset => rfl
  | skSetRbid => rfl
  | skSetPwd => rfl
  | skScan => rfl
  | skSreg => rfl
  | skLl64 ip => rfl
  | skJoin => rfl
  | skSendTo res => rfl
  | eRxUdp d => rfl
  | uartTimeOut => rfl

/-- C5 witness: the ignore conjunct applied to a UartTimeOut item. -/
theorem c5_witness :
    activeScanLoop [((0 : Nat), Response.uartTimeOut)] (.error .noSensorFound) =
      activeScanLoop [] (.error .noSensorFound) :=
  c5_active_scan_last_wins.2.2.2.1 [] (.error .noSensorFound) 0 .uartTimeOut rfl

/-- C6: whenever the join sequence fails, initialize drops the writer (which stores
true into the shared closed flag, forcing the reader's next read to fail), joins the
reader thread, and returns that failure; no session data is handed to the caller. -/
theorem c6_init_failure_teardown :
    (∀ q e, send_initialize_command_sequence q = .error e →
      initResultWithTeardown q = ([.dropWriter, .joinReader], .error e)) ∧
    (∀ s, (uartWriterDrop s).isClosed = true) := by
  refine ⟨fun q e h => ?_, fun _ => rfl⟩
  simp [initResultWithTeardown, h]

/-- C6 witness: an immediately closed queue fails the sequence with the closed-channel
error and initialize tears down and propagates it. -/
theorem c6_witness :
    initResultWithTeardown [] = ([.dropWriter, .joinReader], .error .channelClosed) :=
  c6_init_failure_teardown.1 [] .channelClosed rfl

/-- Helper: a tick that receives only ignored items, all inside the 19-second window,
ends as channel-closed with the gauges untouched, from any in-window start time. -/
theorem pollTick_ignored_closed (q : RespQueue) :
    ∀ tLast unit g, tLast ≤ 19000 →
      (∀ x ∈ q, x.1 ≤ 19000 ∧ tickIgnored x.2 = true) →
      pollTick q tLast unit g = (g, .channelClosed) := by
  induction q with
  | nil =>
    intro tLast unit g ht _
    simp [pollTick, Nat.not_lt.mpr ht]
  | cons hd tl ih =>
    intro tLast unit g ht hall
    obtain ⟨t0, r⟩ := hd
    obtain ⟨⟨ht0, hr⟩, hrest⟩ := List.forall_mem_cons.mp hall
    have hnot : ¬tLast > 19000 := Nat.not_lt.mpr ht
    cases r with
    | skSendTo res =>
      have h0 : res = 0x00 := by simpa [tickIgnored] using hr
      subst h0
      simpa [pollTick, hnot] using ih t0 unit g ht0 hrest
    | eRxUdp d =>
      cases hd : d.edata with
      | eDataFormat1 f =>
        have hne : f.seoj ≠ EOJ_HOUSING_LOW_VOLTAGE_SMART_METER := by
          simpa [tickIgnored, hd] using hr
        simpa [pollTick, hnot, hd, hne] using ih t0 unit g ht0 hrest
      | unknown raw =>
        simpa [pollTick, hnot, hd] using ih t0 unit g ht0 hrest
    | skReset => simpa [pollTick, hnot] using ih t0 unit g ht0 hrest
    | skSetRbid => simpa [pollTick, hnot] using ih t0 unit g ht0 hrest
    | skSetPwd => simpa [pollTick, hnot] using ih t0 unit g ht0 hrest
    | skScan => simpa [pollTick, hnot] using ih t0 unit g ht0 hrest
    | ePanDesc pd => simpa [pollTick, hnot] using ih t0 unit g ht0 hrest
    | skSreg => simpa [pollTick, hnot] using ih t0 unit g ht0 hrest
    | skLl64 ip => simpa [pollTick, hnot] using ih t0 unit g ht0 hrest
    | skJoin => simpa [pollTick, hnot] using ih t0 unit g ht0 hrest
    | event num s p => simpa [pollTick, hnot] using ih t0 unit g ht0 hrest
    | uartTimeOut => simpa [pollTick, hnot] using ih t0 unit g ht0 hrest

/-- C7: when the response queue closes while a polling tick is still inside its
19-second window (having seen only ignored items), the tick ends as the channel-closed
outcome, not as a timeout; and the main loop reacts to that outcome by dropping the
writer, joining the dead reader thread and re-running the whole session state machine
from Reset, whereas a plain timeout just proceeds to the next tick. -/
theorem c7_queue_closed_aborts_polling :
    (∀ q unit g, (∀ x ∈ q, x.1 ≤ 19000 ∧ tickIgnored x.2 = true) →
      pollTick q 0 unit g = (g, .channelClosed)) ∧
    mainLoopStep .channelClosed = ([.dropWriter, .joinReader], .restartSession) ∧
    mainLoopStep .timeout = ([], .nextTick) :=
  ⟨fun q unit g h => pollTick_ignored_closed q 0 unit g (by omega) h, rfl, rfl⟩

/-- C7 witness: a queue that delivers one in-window liveness item and then closes. -/
theorem c7_witness :
    pollTick [((5000 : Nat), Response.uartTimeOut)] 0 1 ⟨0, 0⟩ =
      (⟨0, 0⟩, .channelClosed) :=
  c7_queue_closed_aborts_polling.1 [(5000, .uartTimeOut)] 1 ⟨0, 0⟩ (by decide)

/-- C9: at each of the seven strict-ack steps of the join sequence (reset, set id, set
password, set channel, set PAN id, resolve address, join) the single next queue item
must match the step's expected variant: any other variant — whatever follows it in the
queue — makes the whole sequence fail immediately with that step's error, and the
UartTimeOut liveness signal never matches any of these steps. -/
theorem c9_strict_ack_steps :
    (∀ k r rest, k < 7 → stepExpects k r = false →
      send_initialize_command_sequence (stepPrefix k ++ (0, r) :: rest) =
        .error (stepErr k)) ∧
    (∀ k, stepExpects k .uartTimeOut = false) := by
  constructor
  · intro k r rest hk h
    have e1 : isSkReset Response.skReset = true := rfl
    have e2 : isSkSetRbid Response.skSetRbid = true := rfl
    have e3 : isSkSetPwd Response.skSetPwd = true := rfl
    have e4 : isSkSreg Response.skSreg = true := rfl
    interval_cases k
    · simp only [stepExpects] at h
      simp [send_initialize_command_sequence, recvMatch, stepPrefix, stepErr, h]
    · simp only [stepExpects] at h
      simp [send_initialize_command_sequence, recvMatch, stepPrefix, stepErr, e1, h]
    · simp only [stepExpects] at h
      simp [send_initialize_command_sequence, recvMatch, stepPrefix, stepErr, e1, e2, h]
    · simp only [stepExpects] at h
      simp [send_initialize_command_sequence, recvMatch, stepPrefix, stepErr, e1, e2, e3,
        scanSegment, activeScan, activeScanLoop, h]
    · simp only [stepExpects] at h
      simp [send_initialize_command_sequence, recvMatch, stepPrefix, stepErr, e1, e2, e3,
        e4, scanSegment, activeScan, activeScanLoop, h]
    · simp only [stepExpects] at h
      simp [send_initialize_command_sequence, recvMatch, recvLl64, stepPrefix, stepErr,
        e1, e2, e3, e4, scanSegment, activeScan, activeScanLoop, h]
      cases r <;> simp_all [isSkLl64]
    · simp only [stepExpects] at h
      simp [send_initialize_command_sequence, recvMatch, recvLl64, stepPrefix, stepErr,
        e1, e2, e3, e4, scanSegment, activeScan, activeScanLoop, h]
  · intro k
    match k with
    | 0 => rfl
    | 1 => rfl
    | 2 => rfl
    | 3 => rfl
    | 4 => rfl
    | 5 => rfl
    | 6 => rfl
    | n + 7 => rfl

/-- C9 witness: a UartTimeOut in place of the reset ack fails the sequence at once. -/
theorem c9_strict_witness :
    send_initialize_command_sequence (stepPrefix 0 ++ (0, Response.uartTimeOut) :: []) =
      .error (stepErr 0) :=
  c9_strict_ack_steps.1 0 .uartTimeOut [] (by decide) rfl

/-- C2 counterexample: two matching unit datagrams inside the 19-second window, the
first with scale-code 0x0 (scale 1) and the second with scale-code 0x1 (scale 0.1);
the step returns 0.1, the scale of the SECOND datagram, so the first matching datagram
does not fix the unit for the session. -/
theorem c2_counterexample :
    requestUnitPhase [(1000, mkUnitDatagram 0x0), (2000, mkUnitDatagram 0x1),
      (20000, .uartTimeOut)] = .ok (1 / 10) ∧
    (decide ((1 : ℚ) / 10 = 1)) = false := by
  constructor
  · norm_num [requestUnitPhase, unitLoop, unitFromProps, decodeUnitScale, mkUnitDatagram,
      getU8, EpcLowVoltageSmartMeter.CUMULATIVE_ENERGY_UNIT,
      EOJ_HOUSING_LOW_VOLTAGE_SMART_METER]
  · exact decide_eq_false (by norm_num)

/-- Helper: a property list containing no cumulative-energy-unit property of declared
length 1 leaves the accumulated unit unchanged. -/
theorem unitFromProps_no_match (props : List EDataProperty) :
    ∀ u : ℚ,
      (∀ p ∈ props,
        ¬(p.epc = EpcLowVoltageSmartMeter.CUMULATIVE_ENERGY_UNIT ∧ p.pdc = 0x01)) →
      unitFromProps props u = .ok u := by
  induction props with
  | nil => intro u _; rfl
  | cons p ps ih =>
    intro u hall
    obtain ⟨hp, hps⟩ := List.forall_mem_cons.mp hall
    rw [unitFromProps, if_neg hp]
    exact ih u hps

/-- Helper: over a queue none of whose items carries a unit property from the smart
meter, the RequestUnit wait loop either keeps unit at 0 or fails. -/
theorem unitLoop_no_unit (q : RespQueue) :
    ∀ t : Nat, (∀ x ∈ q, carriesUnitProp x.2 = false) →
      unitLoop q t 0 = .ok 0 ∨ unitResultIsOk (unitLoop q t 0) = false := by
  induction q with
  | nil =>
    intro t _
    by_cases ht : t > 19000
    · left; simp [unitLoop, ht]
    · right; simp [unitLoop, ht, unitResultIsOk]
  | cons hd tl ih =>
    intro t hall
    obtain ⟨t0, r⟩ := hd
    obtain ⟨hr, hrest⟩ := List.forall_mem_cons.mp hall
    by_cases ht : t > 19000
    · left; simp [unitLoop, ht]
    · cases r with
      | skSendTo res =>
        by_cases h0 : res = 0x00
        · subst h0
          simpa [unitLoop, ht] using ih t0 hrest
        · right; simp [unitLoop, ht, h0, unitResultIsOk]
      | eRxUdp d =>
        cases hd2 : d.edata with
        | eDataFormat1 f =>
          by_cases hs : f.seoj = EOJ_HOUSING_LOW_VOLTAGE_SMART_METER
          · have hnp : ∀ p ∈ f.props,
                ¬(p.epc = EpcLowVoltageSmartMeter.CUMULATIVE_ENERGY_UNIT ∧
                  p.pdc = 0x01) := by
              simp only [carriesUnitProp, hd2] at hr
              rw [Bool.and_eq_false_iff] at hr
              rcases hr with hr | hr
              · simp [hs] at hr
              · intro p hp hc
                rw [List.any_eq_false] at hr
                exact hr p hp (by simp [hc.1, hc.2])
            have hfp : unitFromProps f.props 0 = .ok 0 := unitFromProps_no_match f.props 0 hnp
            simpa [unitLoop, ht, hd2, hs, hfp] using ih t0 hrest
          · simpa [unitLoop, ht, hd2, hs] using ih t0 hrest
        | unknown raw =>
          simpa [unitLoop, ht, hd2] using ih t0 hrest
      | skReset => simpa [unitLoop, ht] using ih t0 hrest
      | skSetRbid => simpa [unitLoop, ht] using ih t0 hrest
      | skSetPwd => simpa [unitLoop, ht] using ih t0 hrest
      | skScan => simpa [unitLoop, ht] using ih t0 hrest
      | ePanDesc pd => simpa [unitLoop, ht] using ih t0 hrest
      | skSreg => simpa [unitLoop, ht] using ih t0 hrest
      | skLl64 ip => simpa [unitLoop, ht] using ih t0 hrest
      | skJoin => simpa [unitLoop, ht] using ih t0 hrest
      | event num s p => simpa [unitLoop, ht] using ih t0 hrest
      | uartTimeOut => simpa [unitLoop, ht] using ih t0 hrest

/-- C2 amended: in the RequestUnit step the LAST matching datagram received within the
19-second window determines the session's unit scale — each matching datagram
overwrites the current value, whatever it was — and if no matching datagram is ever
received the step fails. -/
theorem c2_amended_last_wins :
    (∀ q t tLast u b s, tLast ≤ 19000 → decodeUnitScale b = .ok s →
      unitLoop ((t, mkUnitDatagram b) :: q) tLast u = unitLoop q t s) ∧
    (∀ q, (∀ x ∈ q, carriesUnitProp x.2 = false) →
      unitResultIsOk (requestUnitPhase q) = false) := by
  constructor
  · intro q t tLast u b s ht hdec
    have hnot : ¬tLast > 19000 := Nat.not_lt.mpr ht
    simp [unitLoop, hnot, mkUnitDatagram, unitFromProps, getU8, hdec]
  · intro q hall
    rcases unitLoop_no_unit q 0 hall with h | h
    · simp [requestUnitPhase, h, unitResultIsOk]
    · cases hl : unitLoop q 0 0 with
      | ok v => rw [hl] at h; simp [unitResultIsOk] at h
      | error e => simp [requestUnitPhase, hl, unitResultIsOk]

/-- C2 witness: the overwrite conjunct applied at unit byte 0x0B over a previously
decoded unit, and the failure conjunct applied to a queue of liveness items only. -/
theorem c2_amended_witness :
    unitLoop [((20000 : Nat), mkUnitDatagram 0xb)] 0 1 = unitLoop [] 20000 100 ∧
    unitResultIsOk (requestUnitPhase [((5000 : Nat), Response.uartTimeOut)]) = false :=
  ⟨c2_amended_last_wins.1 [] 20000 0 1 0xb 100 (by decide) rfl,
   c2_amended_last_wins.2 [(5000, .uartTimeOut)] (by decide)⟩

/-- C3 counterexample: the claim speaks of TEN defined codes, but the set it
enumerates (0x0-0x4 and 0xA-0xD), which is exactly the set of non-error arms of the
scale-code table, has nine elements. -/
theorem c3_counterexample :
    definedScaleCodes.length = 9 ∧ (definedScaleCodes.length == 10) = false := by
  decide

/-- C3 amended: the unit scale-code decode is a total mapping over bytes with NINE
defined codes (0x0-0x4 and 0xA-0xD): each yields exactly its documented multiplier
(1, 0.1, 0.01, 0.001, 0.0001, 10, 100, 1000, 10000 respectively), and every byte
outside that set makes the RequestUnit step fail with the invalid-unit error. -/
theorem c3_scale_code_total :
    (decodeUnitScale 0x0 = .ok 1 ∧ decodeUnitScale 0x1 = .ok (1 / 10) ∧
     decodeUnitScale 0x2 = .ok (1 / 100) ∧ decodeUnitScale 0x3 = .ok (1 / 1000) ∧
     decodeUnitScale 0x4 = .ok (1 / 10000) ∧ decodeUnitScale 0xa = .ok 10 ∧
     decodeUnitScale 0xb = .ok 100 ∧ decodeUnitScale 0xc = .ok 1000 ∧
     decodeUnitScale 0xd = .ok 10000) ∧
    (∀ b, b < 256 → b ∉ definedScaleCodes →
      decodeUnitScale b = .error .invalidUnit ∧
      ∀ q t tLast u, tLast ≤ 19000 →
        unitLoop ((t, mkUnitDatagram b) :: q) tLast u = .error .invalidUnit) := by
  refine ⟨⟨rfl, rfl, rfl, rfl, rfl, rfl, rfl, rfl, rfl⟩, fun b _hb hmem => ?_⟩
  simp only [definedScaleCodes, List.mem_cons, List.not_mem_nil, or_false] at hmem
  push_neg at hmem
  obtain ⟨h0, h1, h2, h3, h4, ha, hb2, hc, hd⟩ := hmem
  have hdec : decodeUnitScale b = .error .invalidUnit := by
    simp [decodeUnitScale, h0, h1, h2, h3, h4, ha, hb2, hc, hd]
  refine ⟨hdec, fun q t tLast u ht => ?_⟩
  have hnot : ¬tLast > 19000 := Nat.not_lt.mpr ht
  simp [unitLoop, hnot, mkUnitDatagram, unitFromProps, getU8, hdec]

/-- C3 witness: byte 0x05 is outside the defined set, fails the decode and fails the
step. -/
theorem c3_scale_code_witness :
    decodeUnitScale 0x05 = .error .invalidUnit ∧
    unitLoop [((0 : Nat), mkUnitDatagram 0x05)] 0 0 = .error .invalidUnit :=
  ⟨(c3_scale_code_total.2 0x05 (by decide) (by decide)).1,
   (c3_scale_code_total.2 0x05 (by decide) (by decide)).2 [] 0 0 0 (by decide)⟩

/-- C4: in a polling tick, a received-datagram from the smart-meter source object sets
the instantaneous reading to the big-endian 32-bit magnitude of the instantaneous
property's payload (declared length 4) with no scaling, and the cumulative reading to
the big-endian 32-bit value at payload offset 7 of the cumulative property (declared
length 11) times the unit scale; the datagram ends the tick with all its properties
applied in order; and on the spec's scenario (payload 00 00 02 9A, unit byte 0x0B,
trailing bytes 00 00 00 64) the readings become 666 and 10000. -/
theorem c4_poll_tick_readings :
    (∀ (u : ℚ) (g : Gauges) (p : EDataProperty),
      p.epc = EpcLowVoltageSmartMeter.INSTANTANEOUS_ENERGY → p.pdc = 0x04 →
      applyProp u g p = { g with instantaneous := (getU32BE p.edt : ℚ) }) ∧
    (∀ (u : ℚ) (g : Gauges) (p : EDataProperty),
      p.epc = EpcLowVoltageSmartMeter.CUMULATIVE_ENERGY_FIXED_TIME_NORMAL_DIRECTION →
      p.pdc = 0x0b →
      applyProp u g p = { g with cumulative := (getU32BE (p.edt.drop 7) : ℚ) * u }) ∧
    (∀ rest t unit g props,
      pollTick ((t, meterDatagram props) :: rest) 0 unit g =
        (props.foldl (applyProp unit) g, .dataApplied)) ∧
    decodeUnitScale 0x0b = .ok 100 ∧
    pollTick [(1000, meterDatagram [instProp, cumProp])] 0 100 ⟨0, 0⟩ =
      (⟨666, 10000⟩, .dataApplied) := by
  refine ⟨fun u g p h1 h2 => ?_, fun u g p h1 h2 => ?_, fun rest t unit g props => ?_,
    rfl, ?_⟩
  · simp [applyProp, h1, h2, EpcLowVoltageSmartMeter.INSTANTANEOUS_ENERGY]
  · simp [applyProp, h1, h2, EpcLowVoltageSmartMeter.INSTANTANEOUS_ENERGY,
      EpcLowVoltageSmartMeter.CUMULATIVE_ENERGY_FIXED_TIME_NORMAL_DIRECTION]
  · simp [pollTick, meterDatagram]
  · norm_num [pollTick, applyProp, meterDatagram, instProp, cumProp, getU32BE,
      EpcLowVoltageSmartMeter.INSTANTANEOUS_ENERGY,
      EpcLowVoltageSmartMeter.CUMULATIVE_ENERGY_FIXED_TIME_NORMAL_DIRECTION,
      EOJ_HOUSING_LOW_VOLTAGE_SMART_METER]

/-- C4 witness: the two per-property conjuncts applied to the scenario properties. -/
theorem c4_poll_tick_witness :
    applyProp 1 ⟨0, 0⟩ instProp =
      { instantaneous := (getU32BE instProp.edt : ℚ), cumulative := 0 } ∧
    applyProp 1 ⟨0, 0⟩ cumProp =
      { instantaneous := 0, cumulative := (getU32BE (cumProp.edt.drop 7) : ℚ) * 1 } :=
  ⟨c4_poll_tick_readings.1 1 ⟨0, 0⟩ instProp rfl rfl,
   c4_poll_tick_readings.2.1 1 ⟨0, 0⟩ cumProp rfl rfl⟩

/-- Helper: every value the scale-code table can produce is one of the nine table
multipliers. -/
theorem decodeUnitScale_mem {b : Nat} {s : ℚ} (h : decodeUnitScale b = .ok s) :
    s ∈ scaleValues := by
  unfold decodeUnitScale at h
  split_ifs at h <;> simp_all [scaleValues]

/-- Helper: the property loop either keeps the accumulated unit or replaces it with a
table multiplier. -/
theorem unitFromProps_mem (props : List EDataProperty) :
    ∀ u u' : ℚ, unitFromProps props u = .ok u' → u' = u ∨ u' ∈ scaleValues := by
  induction props with
  | nil =>
    intro u u' h
    rw [unitFromProps] at h
    exact Or.inl (Except.ok.inj h).symm
  | cons p ps ih =>
    intro u u' h
    by_cases hc : p.epc = EpcLowVoltageSmartMeter.CUMULATIVE_ENERGY_UNIT ∧ p.pdc = 0x01
    · rw [unitFromProps, if_pos hc] at h
      cases hd : decodeUnitScale (getU8 p.edt) with
      | ok v =>
        rw [hd] at h
        rcases ih v u' h with h1 | h1
        · exact Or.inr (h1 ▸ decodeUnitScale_mem hd)
        · exact Or.inr h1
      | error e => rw [hd] at h; cases h
    · rw [unitFromProps, if_neg hc] at h
      exact ih u u' h

/-- Helper: the RequestUnit wait loop either returns the unit it started with or a
table multiplier. -/
theorem unitLoop_mem (q : RespQueue) :
    ∀ (t : Nat) (u u' : ℚ), unitLoop q t u = .ok u' → u' = u ∨ u' ∈ scaleValues := by
  induction q with
  | nil =>
    intro t u u' h
    rcases Nat.lt_or_ge 19000 t with ht | ht
    · simp only [unitLoop, if_pos ht, Except.ok.injEq] at h
      exact Or.inl h.symm
    · exact absurd h (by simp [unitLoop, Nat.not_lt.mpr ht])
  | cons hd tl ih =>
    intro t u u' h
    obtain ⟨t0, r⟩ := hd
    cases r with
    | skSendTo res =>
      rcases Nat.lt_or_ge 19000 t with ht | ht
      · simp only [unitLoop, if_pos ht, Except.ok.injEq] at h
        exact Or.inl h.symm
      · simp only [unitLoop, if_neg (Nat.not_lt.mpr ht)] at h
        by_cases h0 : res = 0x00
        · rw [if_pos h0] at h
          exact ih t0 u u' h
        · rw [if_neg h0] at h
          cases h
    | eRxUdp d =>
      obtain ⟨ehd1, tid1, ed⟩ := d
      cases ed with
      | eDataFormat1 f =>
        rcases Nat.lt_or_ge 19000 t with ht | ht
        · simp only [unitLoop, if_pos ht, Except.ok.injEq] at h
          exact Or.inl h.symm
        · simp only [unitLoop, if_neg (Nat.not_lt.mpr ht)] at h
          by_cases hs : f.seoj = EOJ_HOUSING_LOW_VOLTAGE_SMART_METER
          · rw [if_pos hs] at h
            cases hfp : unitFromProps f.props u with
            | ok v =>
              simp only [hfp] at h
              rcases ih t0 v u' h with h1 | h1
              · rcases unitFromProps_mem f.props u v hfp with h2 | h2
                · exact Or.inl (h1.trans h2)
                · exact Or.inr (h1 ▸ h2)
              · exact Or.inr h1
            | error e => simp only [hfp] at h; cases h
          · rw [if_neg hs] at h
            exact ih t0 u u' h
      | unknown raw =>
        rcases Nat.lt_or_ge 19000 t with ht | ht
        · simp only [unitLoop, if_pos ht, Except.ok.injEq] at h
          exact Or.inl h.symm
        · simp only [unitLoop, if_neg (Nat.not_lt.mpr ht)] at h
          exact ih t0 u u' h
    | skReset =>
      rcases Nat.lt_or_ge 19000 t with ht | ht
      · simp only [unitLoop, if_pos ht, Except.ok.injEq] at h
        exact Or.inl h.symm
      · simp only [unitLoop, if_neg (Nat.not_lt.mpr ht)] at h
        exact ih t0 u u' h
    | skSetRbid =>
      rcases Nat.lt_or_ge 19000 t with ht | ht
      · simp only [unitLoop, if_pos ht, Except.ok.injEq] at h
        exact Or.inl h.symm
      · simp only [unitLoop, if_neg (Nat.not_lt.mpr ht)] at h
        exact ih t0 u u' h
    | skSetPwd =>
      rcases Nat.lt_or_ge 19000 t with ht | ht
      · simp only [unitLoop, if_pos ht, Except.ok.injEq] at h
        exact Or.inl h.symm
      · simp only [unitLoop, if_neg (Nat.not_lt.mpr ht)] at h
        exact ih t0 u u' h
    | skScan =>
      rcases Nat.lt_or_ge 19000 t with ht | ht
      · simp only [unitLoop, if_pos ht, Except.ok.injEq] at h
        exact Or.inl h.symm
      · simp only [unitLoop, if_neg (Nat.not_lt.mpr ht)] at h
        exact ih t0 u u' h
    | ePanDesc pd =>
      rcases Nat.lt_or_ge 19000 t with ht | ht
      · simp only [unitLoop, if_pos ht, Except.ok.injEq] at h
        exact Or.inl h.symm
      · simp only [unitLoop, if_neg (Nat.not_lt.mpr ht)] at h
        exact ih t0 u u' h
    | skSreg =>
      rcases Nat.lt_or_ge 19000 t with ht | ht
      · simp only [unitLoop, if_pos ht, Except.ok.injEq] at h
        exact Or.inl h.symm
      · simp only [unitLoop, if_neg (Nat.not_lt.mpr ht)] at h
        exact ih t0 u u' h
    | skLl64 ip =>
      rcases Nat.lt_or_ge 19000 t with ht | ht
      · simp only [unitLoop, if_pos ht, Except.ok.injEq] at h
        exact Or.inl h.symm
      · simp only [unitLoop, if_neg (Nat.not_lt.mpr ht)] at h
        exact ih t0 u u' h
    | skJoin =>
      rcases Nat.lt_or_ge 19000 t with ht | ht
      · simp only [unitLoop, if_pos ht, Except.ok.injEq] at h
        exact Or.inl h.symm
      · simp only [unitLoop, if_neg (Nat.not_lt.mpr ht)] at h
        exact ih t0 u u' h
    | event num s p =>
      rcases Nat.lt_or_ge 19000 t with ht | ht
      · simp only [unitLoop, if_pos ht, Except.ok.injEq] at h
        exact Or.inl h.symm
      · simp only [unitLoop, if_neg (Nat.not_lt.mpr ht)] at h
        exact ih t0 u u' h
    | uartTimeOut =>
      rcases Nat.lt_or_ge 19000 t with ht | ht
      · simp only [unitLoop, if_pos ht, Except.ok.injEq] at h
        exact Or.inl h.symm
      · simp only [unitLoop, if_neg (Nat.not_lt.mpr ht)] at h
        exact ih t0 u u' h

/-- Helper: a successful RequestUnit step always returns a table multiplier. -/
theorem requestUnitPhase_mem (q : RespQueue) (u : ℚ)
    (h : requestUnitPhase q = .ok u) : u ∈ scaleValues := by
  unfold requestUnitPhase at h
  cases hl : unitLoop q 0 0 with
  | error e => simp only [hl] at h; cases h
  | ok v =>
    simp only [hl] at h
    by_cases hv : v = 0
    · rw [if_pos hv] at h; cases h
    · rw [if_neg hv] at h
      have huv : v = u := Except.ok.inj h
      rcases unitLoop_mem q 0 0 v hl with h1 | h1
      · exact absurd h1 hv
      · exact huv ▸ h1

/-- C10: whenever the join sequence succeeds, the unit scale it returns is one of the
nine table values 1, 0.1, 0.01, 0.001, 0.0001, 10, 100, 1000, 10000 — in particular
never 0, since a unit still at the 0 sentinel is turned into a failure before
returning. -/
theorem c10_success_unit_in_table :
    ∀ q ip u, send_initialize_command_sequence q = .ok (ip, u) →
      u ∈ scaleValues ∧ decide (u = 0) = false := by
  intro q ip u h
  unfold send_initialize_command_sequence at h
  cases h1 : recvMatch q isSkReset .skResetFailed with
  | error e => simp only [h1] at h; cases h
  | ok q1 =>
  simp only [h1] at h
  cases h2 : recvMatch q1 isSkSetRbid .skSetRbidFailed with
  | error e => simp only [h2] at h; cases h
  | ok q2 =>
  simp only [h2] at h
  cases h3 : recvMatch q2 isSkSetPwd .skSetPwdFailed with
  | error e => simp only [h3] at h; cases h
  | ok q3 =>
  simp only [h3] at h
  cases h4 : activeScan q3 with
  | error e => simp only [h4] at h; cases h
  | ok pr =>
  obtain ⟨pd, q4⟩ := pr
  simp only [h4] at h
  cases h5 : recvMatch q4 isSkSreg .skSregFailed with
  | error e => simp only [h5] at h; cases h
  | ok q5 =>
  simp only [h5] at h
  cases h6 : recvMatch q5 isSkSreg .skSregFailed with
  | error e => simp only [h6] at h; cases h
  | ok q6 =>
  simp only [h6] at h
  cases h7 : recvLl64 q6 with
  | error e => simp only [h7] at h; cases h
  | ok pr2 =>
  obtain ⟨ip2, q7⟩ := pr2
  simp only [h7] at h
  cases h8 : recvMatch q7 isSkJoin .skJoinFailed with
  | error e => simp only [h8] at h; cases h
  | ok q8 =>
  simp only [h8] at h
  cases h9 : waitForConnect q8 with
  | error e => simp only [h9] at h; cases h
  | ok q9 =>
  simp only [h9] at h
  cases h10 : requestUnitPhase q9 with
  | error e => simp only [h10] at h; cases h
  | ok v =>
  simp only [h10, Except.ok.injEq, Prod.mk.injEq] at h
  obtain ⟨_, hvu⟩ := h
  subst hvu
  have hmem := requestUnitPhase_mem q9 _ h10
  have hzero : (0 : ℚ) ∉ scaleValues := by norm_num [scaleValues]
  exact ⟨hmem, decide_eq_false fun h0 => hzero (h0 ▸ hmem)⟩

/-- C10 witness: a fully successful run with unit byte 0x0B yields scale 100, which is
in the table and nonzero. -/
theorem c10_success_witness :
    (100 : ℚ) ∈ scaleValues ∧ decide ((100 : ℚ) = 0) = false :=
  c10_success_unit_in_table goodQueue demoAddr 100 (by
    norm_num [send_initialize_command_sequence, recvMatch, recvLl64, activeScan,
      activeScanLoop, waitForConnect, requestUnitPhase, unitLoop, unitFromProps,
      decodeUnitScale, mkUnitDatagram, getU8, isSkReset, isSkSetRbid, isSkSetPwd,
      isSkSreg, isSkJoin, goodQueue, scanSegment, demoAddr, pd36,
      EpcLowVoltageSmartMeter.CUMULATIVE_ENERGY_UNIT,
      EOJ_HOUSING_LOW_VOLTAGE_SMART_METER])

end SmartmeterExporter
